import Mathlib

/-!
Verification of the WhatsApp sales-bot repository (`ai.js`, `database.js`,
`whatsapp.js`, `routes/orders.js`) against its natural-language
specification.  The JavaScript code is shallowly embedded: JS strings are
Lean `String`s (substring search and lower-casing operate on the
underlying character list), Supabase tables are Lean lists inside an
explicit `DB` state, timestamps (`new Date().toISOString()`) are `Nat`
values threaded as an explicit `now` parameter, JSON `null`/absent fields
are `Option`, and fallible database / network operations return `Except`.
-/

namespace WABot

/-- JS `hay.includes(needle)` : substring containment on the character
sequences of the two strings. -/
def strIncludes (hay needle : String) : Bool :=
  decide (needle.data <:+: hay.data)

/-- JS `s.toLowerCase()` : lower-case every character (written on the
character list so that it evaluates inside the kernel). -/
def lowerStr (s : String) : String := String.mk (s.data.map Char.toLower)

/- ===================== whatsapp.js : formatPhoneNumber ===================== -/

/-- JS `phoneNumber.replace(/\D/g, '')` — keep only the digit characters. -/
def cleanDigits (s : String) : List Char :=
  s.data.filter (fun c => c.isDigit)

/-- The country-code step of `formatPhoneNumber`:
`if (!cleaned.startsWith('1') && cleaned.length === 10) cleaned = '1' + cleaned`.
`startsWith('1')` is translated as "the first character is '1'". -/
def withCountryCode (l : List Char) : List Char :=
  if l.head? ≠ some '1' ∧ l.length = 10 then '1' :: l else l

/-- Embedding of `formatPhoneNumber` from `whatsapp.js`: strip non-digits, maybe prepend the
US country code, append the WhatsApp domain suffix. -/
def formatPhoneNumber (phoneNumber : String) : String :=
  String.mk (withCountryCode (cleanDigits phoneNumber)) ++ "@s.whatsapp.net"

/-- Restatement of the spec's words (section 6, phone-number normalization):
"strip all non-digits; if exactly 10 digits and not already starting with
'1', prepend '1'; append a fixed domain suffix". Used to compare the code
against the spec sentence for claim C8. -/
def specFormatPhoneNumber (s : String) : String :=
  let ds := s.data.filter (fun c => c.isDigit)
  let ds := if ds.length = 10 ∧ ds.head? ≠ some '1' then '1' :: ds else ds
  String.mk ds ++ "@s.whatsapp.net"

/-- Claim C8: for every input string, `formatPhoneNumber` strips all
non-digit characters, prepends "1" exactly when the remaining digits are
exactly 10 long and do not already start with "1", and appends the fixed
domain suffix "@s.whatsapp.net" — i.e. it agrees with the function read
off the spec's words. -/
theorem formatPhoneNumber_matches_spec (s : String) :
    formatPhoneNumber s = specFormatPhoneNumber s := by
  unfold formatPhoneNumber specFormatPhoneNumber withCountryCode cleanDigits
  have h : ((s.data.filter (fun c => c.isDigit)).head? ≠ some '1' ∧
      (s.data.filter (fun c => c.isDigit)).length = 10) ↔
      ((s.data.filter (fun c => c.isDigit)).length = 10 ∧
      (s.data.filter (fun c => c.isDigit)).head? ≠ some '1') := and_comm
  rw [if_congr h rfl rfl]

/-- Characters of the fixed domain suffix contain no digit. -/
theorem suffix_has_no_digit :
    ("@s.whatsapp.net".data.filter (fun c => c.isDigit)) = [] := by decide

/-- Filtering for digits is idempotent. -/
theorem filter_digits_idem (l : List Char) :
    (l.filter (fun c => c.isDigit)).filter (fun c => c.isDigit)
      = l.filter (fun c => c.isDigit) :=
  List.filter_eq_self.mpr (fun _ ha => List.of_mem_filter ha)

/-- Helper: `withCountryCode` never re-fires on its own output. -/
theorem withCountryCode_idem (l : List Char) :
    withCountryCode (withCountryCode l) = withCountryCode l := by
  unfold withCountryCode
  by_cases h : l.head? ≠ some '1' ∧ l.length = 10
  · simp only [if_pos h]
    have : ¬ (('1' :: l).head? ≠ some '1' ∧ ('1' :: l).length = 10) := by
      intro hc
      exact hc.1 rfl
    simp only [if_neg this]
  · simp only [if_neg h, if_neg h]

/-- The digits of `withCountryCode` applied to a digit list are that list. -/
theorem filter_digits_withCountryCode (l : List Char)
    (hl : ∀ c ∈ l, c.isDigit = true) :
    (withCountryCode l).filter (fun c => c.isDigit) = withCountryCode l := by
  apply List.filter_eq_self.mpr
  intro c hc
  unfold withCountryCode at hc
  by_cases h : l.head? ≠ some '1' ∧ l.length = 10
  · rw [if_pos h] at hc
    rcases List.mem_cons.mp hc with h1 | h2
    · subst h1; decide
    · exact hl c h2
  · rw [if_neg h] at hc
    exact hl c hc

/-- Claim C10: `formatPhoneNumber` is idempotent — the appended suffix
contributes no digits, and the "1"-prefixed result never satisfies the
prepend condition again. -/
theorem formatPhoneNumber_idem (s : String) :
    formatPhoneNumber (formatPhoneNumber s) = formatPhoneNumber s := by
  unfold formatPhoneNumber
  have hdata : (String.mk (withCountryCode (cleanDigits s)) ++ "@s.whatsapp.net").data
      = withCountryCode (cleanDigits s) ++ "@s.whatsapp.net".data := rfl
  have hclean : cleanDigits (String.mk (withCountryCode (cleanDigits s)) ++ "@s.whatsapp.net")
      = withCountryCode (cleanDigits s) := by
    show ((String.mk (withCountryCode (cleanDigits s)) ++ "@s.whatsapp.net").data.filter
      (fun c => c.isDigit)) = _
    rw [hdata, List.filter_append, suffix_has_no_digit, List.append_nil]
    exact filter_digits_withCountryCode (cleanDigits s)
      (fun c hc => List.of_mem_filter hc)
  rw [hclean, withCountryCode_idem]

/- ===================== database.js : data model ===================== -/

/-- A row of the `leads` table.  `created_at` and `updated_at` are the
column defaults (`now()`) set on insert; `customer_name` and `city` are
nullable columns. -/
structure Lead where
  id : Nat
  phone_number : String
  customer_name : Option String
  city : Option String
  status : String
  needs_human_agent : Bool
  last_message_at : Nat
  created_at : Nat
  updated_at : Nat
deriving DecidableEq

/-- A row of the `chat_history` table (the JSON `metadata` column is not
read by any claim-relevant operation and is omitted). -/
structure ChatTurn where
  id : Nat
  lead_id : Nat
  phone_number : String
  role : String
  message : String
  created_at : Nat
deriving DecidableEq

/-- One entry of an order's `products` JSON array. -/
structure OrderItem where
  id : String
  quantity : Nat
  name : String
  price : ℚ
deriving DecidableEq

/-- A row of the `orders` table. -/
structure Order where
  id : Nat
  lead_id : Nat
  phone_number : String
  products : List OrderItem
  total_amount : Option ℚ
  status : String
  notes : Option String
  created_at : Nat
deriving DecidableEq

/-- The Supabase database state: the three tables plus the id sequences
that produce fresh primary keys. -/
structure DB where
  leads : List Lead
  chat_history : List ChatTurn
  orders : List Order
  nextLeadId : Nat
  nextOrderId : Nat
deriving DecidableEq

/- ===================== database.js : lead operations ===================== -/

/-- Embedding of `getOrCreateLead(phoneNumber)`.  The select + `maybeSingle()` is a
first-match lookup (the unique constraint on `phone_number` keeps it
single-valued); if a lead exists its `last_message_at` and `updated_at`
are set to now, otherwise a fresh lead with status "new" is inserted.
`now` stands for `new Date().toISOString()`.

The row inserted for an unseen phone number is
`{phone_number, status: 'new', last_message_at: now}` plus the column
defaults, named `freshLead` here. -/
def freshLead (phoneNumber : String) (now : Nat) (id : Nat) : Lead :=
  { id := id, phone_number := phoneNumber, customer_name := none,
    city := none, status := "new", needs_human_agent := false,
    last_message_at := now, created_at := now, updated_at := now }

def getOrCreateLead (phoneNumber : String) (now : Nat) (db : DB) : Lead × DB :=
  match db.leads.find? (fun l => l.phone_number = phoneNumber) with
  | some l =>
    let l2 := { l with last_message_at := now, updated_at := now }
    (l2, { db with leads := db.leads.map (fun x => if x.id = l.id then l2 else x) })
  | none =>
    let l := freshLead phoneNumber now db.nextLeadId
    (l, { db with leads := db.leads ++ [l], nextLeadId := db.nextLeadId + 1 })

/-- The set of optional fields an `updateLead` call may carry (the fields
the application ever sends: profile fields, status, handoff flag). An
absent field is not touched. -/
structure LeadUpdate where
  customer_name : Option String := none
  city : Option String := none
  status : Option String := none
  needs_human_agent : Option Bool := none
deriving DecidableEq

/-- Merge the provided fields into a lead and refresh `updated_at`
(`updateLead` always sets `updated_at: new Date().toISOString()`). -/
def applyLeadUpdate (u : LeadUpdate) (now : Nat) (l : Lead) : Lead :=
  { l with
    customer_name := u.customer_name.or l.customer_name,
    city := u.city.or l.city,
    status := u.status.getD l.status,
    needs_human_agent := u.needs_human_agent.getD l.needs_human_agent,
    updated_at := now }

/-- Embedding of `updateLead(leadId, updates)`: update-by-id followed by
`.select().single()`, which errors unless exactly one row matched. -/
def updateLead (leadId : Nat) (u : LeadUpdate) (now : Nat) (db : DB) :
    Except String (Lead × DB) :=
  match db.leads.filter (fun l => l.id = leadId) with
  | [l] =>
    let l2 := applyLeadUpdate u now l
    .ok (l2, { db with leads := db.leads.map (fun x => if x.id = leadId then l2 else x) })
  | _ => .error "updateLead: no single lead with this id"

/- ===================== database.js : chat history ===================== -/

/-- Embedding of `getChatHistory(phoneNumber, limit)`: select rows for the phone
number, `order('created_at', ascending: true)`, then `limit(limit)` —
which keeps the FIRST `limit` rows of the ascending order. -/
def getChatHistory (phoneNumber : String) (lim : Nat) (db : DB) : List ChatTurn :=
  ((db.chat_history.filter (fun t => t.phone_number = phoneNumber)).insertionSort
    (fun a b => a.created_at ≤ b.created_at)).take lim

/-- Restatement of the spec's words for claim C1: the most-recent-`limit`
window of the phone's turns, ordered ascending by creation time — i.e.
the LAST `limit` rows of the ascending order. -/
def specRecentChatWindow (phoneNumber : String) (lim : Nat) (db : DB) : List ChatTurn :=
  let asc := (db.chat_history.filter (fun t => t.phone_number = phoneNumber)).insertionSort
    (fun a b => a.created_at ≤ b.created_at)
  asc.drop (asc.length - lim)

/- ===================== database.js : orders ===================== -/

/-- Embedding of `createOrder(leadId, phoneNumber, products, totalAmount, notes)`:
insert an order with status "pending", then set the parent lead's status
to "converted" via `updateLead`; an `updateLead` failure is rethrown to
the caller. -/
def createOrder (leadId : Nat) (phoneNumber : String) (products : List OrderItem)
    (totalAmount : Option ℚ) (notes : Option String) (now : Nat) (db : DB) :
    Except String (Order × DB) :=
  let o : Order :=
    { id := db.nextOrderId, lead_id := leadId, phone_number := phoneNumber,
      products := products, total_amount := totalAmount, status := "pending",
      notes := notes, created_at := now }
  let db1 := { db with orders := db.orders ++ [o], nextOrderId := db.nextOrderId + 1 }
  match updateLead leadId { status := some "converted" } now db1 with
  | .ok (_, db2) => .ok (o, db2)
  | .error e => .error e

/-- Embedding of `updateOrderStatus(orderId, status)`: update-by-id of the `status`
column followed by `.select().single()`. -/
def updateOrderStatus (orderId : Nat) (status : String) (db : DB) :
    Except String (Order × DB) :=
  match db.orders.filter (fun o => o.id = orderId) with
  | [o] =>
    let o2 := { o with status := status }
    .ok (o2, { db with orders := db.orders.map (fun x => if x.id = orderId then o2 else x) })
  | _ => .error "updateOrderStatus: no single order with this id"

/- ===================== database.js : statistics ===================== -/

/-- The dashboard statistics record.  `conversionRate` is kept as an
exact rational; the JS value is `toFixed(2)`, i.e. the rate rounded
half-up to two decimals (rendered as a string, a representation detail). -/
structure Stats where
  totalLeads : Nat
  convertedLeads : Nat
  needsHumanAgent : Nat
  totalOrders : Nat
  conversionRate : ℚ
deriving DecidableEq

/-- Round a rational half-up to two decimal places, the numeric content
of JavaScript's `x.toFixed(2)` for the non-negative values produced here. -/
def round2 (q : ℚ) : ℚ := (round (q * 100) : ℤ) / 100

/-- Embedding of `getStatistics()`: four count queries over the tables plus the
derived percentage, which is `0` when there are no leads. -/
def getStatistics (db : DB) : Stats :=
  let totalLeads := db.leads.length
  let convertedLeads := (db.leads.filter (fun l => l.status = "converted")).length
  let needsAgent := (db.leads.filter (fun l => l.needs_human_agent = true)).length
  { totalLeads := totalLeads, convertedLeads := convertedLeads,
    needsHumanAgent := needsAgent, totalOrders := db.orders.length,
    conversionRate :=
      if totalLeads > 0 then round2 (((convertedLeads : ℚ) / (totalLeads : ℚ)) * 100)
      else 0 }

/- ================ routes/orders.js : status-update handler ================ -/

/-- The JSON envelope a route handler produces (HTTP code, success flag,
error text). -/
structure HttpResponse where
  code : Nat
  success : Bool
  error : Option String
deriving DecidableEq

/-- The `validStatuses` list of `PUT /api/orders/:orderId/status`. -/
def validStatuses : List String := ["pending", "confirmed", "completed", "cancelled"]

/-- The `PUT /api/orders/:orderId/status` handler: 400 when `status` is
missing or not in `validStatuses` (without touching the store), otherwise
call `updateOrderStatus` and map its outcome to 200 / 500. -/
def updateOrderStatusHandler (orderId : Nat) (body : Option String) (db : DB) :
    HttpResponse × DB :=
  match body with
  | none => ({ code := 400, success := false, error := some "Status is required" }, db)
  | some status =>
    if status ∈ validStatuses then
      match updateOrderStatus orderId status db with
      | .ok (_, db2) => ({ code := 200, success := true, error := none }, db2)
      | .error e => ({ code := 500, success := false, error := some e }, db)
    else
      ({ code := 400, success := false,
         error := some "Status must be one of: pending, confirmed, completed, cancelled" }, db)

/- ===================== ai.js : product catalog and matching ===================== -/

/-- An entry of `products.json` as read by `ai.js` (`currency` is never
read by the code and is omitted; absent optional JSON fields are `none`).
Prices are exact rationals; their textual rendering inside the prompt is a
representation detail. -/
structure Product where
  id : String
  name : String
  description : String
  price : ℚ
  sizes : Option (List String) := none
  colors : Option (List String) := none
  category : Option String := none
  keywords : Option (List String) := none
deriving DecidableEq

/-- Embedding of `isAgentRequested(message)`: any of the fixed handoff keywords occurs
in the lower-cased message. -/
def agentKeywords : List String :=
  ["agent", "human", "speak to someone", "talk to person", "real person"]

def isAgentRequested (message : String) : Bool :=
  let lowerMessage := lowerStr message
  agentKeywords.any (fun keyword => strIncludes lowerMessage keyword)

/-- The per-product test of `findRelevantProducts`: some keyword, the
category, or the product name occurs (lower-cased) in the lower-cased
message. -/
def productMatches (lowerMessage : String) (p : Product) : Bool :=
  (match p.keywords with
   | some ks => ks.any (fun k => strIncludes lowerMessage (lowerStr k))
   | none => false) ||
  (match p.category with
   | some c => strIncludes lowerMessage (lowerStr c)
   | none => false) ||
  strIncludes lowerMessage (lowerStr p.name)

/-- Embedding of `findRelevantProducts(message, products)`: the source's accumulation
loop pushes each product passing `productMatches` once, in catalog order,
then applies `.slice(0, 3)` — i.e. filter followed by `take 3`. -/
def findRelevantProducts (message : String) (products : List Product) : List Product :=
  (products.filter (productMatches (lowerStr message))).take 3

/- ===================== ai.js : prompt assembly ===================== -/

/-- One line of the rendered catalog inside the system prompt
(`name - $price (Sizes: ...) (Colors: ...): description`). -/
def renderProductLine (p : Product) : String :=
  let details := p.name ++ " - $" ++ toString p.price
  let details := match p.sizes with
    | some ss => details ++ " (Sizes: " ++ String.intercalate ", " ss ++ ")"
    | none => details
  let details := match p.colors with
    | some cs => details ++ " (Colors: " ++ String.intercalate ", " cs ++ ")"
    | none => details
  "- " ++ details ++ ": " ++ p.description

/-- The persona/style text of `createSystemPrompt` before the rendered
catalog. -/
def systemPromptHeader : String :=
  "You are a HIGH-CONVERTING WhatsApp Sales Assistant for a local retail shop.\n\n" ++
  "You are not a chatbot.\nYou behave like a real local shopkeeper chatting on WhatsApp.\n\n" ++
  "🎯 MAIN GOAL:\nSmoothly convert conversations into confirmed orders.\n" ++
  "Always guide toward purchase confidently but naturally.\n\n" ++
  "🗣 LANGUAGE RULES:\n- Detect customer language automatically.\n" ++
  "- If customer uses Hindi → reply ONLY in pure Hindi (Devanagari).\n" ++
  "- If customer uses Gujarati → reply ONLY in pure Gujarati script.\n" ++
  "- If customer uses English → reply in English.\n" ++
  "- NEVER mix English inside Hindi or Gujarati replies.\n" ++
  "- Never use Hinglish or Roman script.\n\n" ++
  "💬 MESSAGE STYLE:\n- Maximum 1–2 short sentences.\n- WhatsApp tone.\n" ++
  "- Friendly, confident, human.\n- At most ONE emoji.\n- No long explanations.\n\n" ++
  "🛒 SALES FLOW:\n1. Understand need.\n2. Recommend ONE best product confidently.\n" ++
  "3. Mention key benefit (comfort, style, daily use, value).\n" ++
  "4. Reduce hesitation naturally.\n5. End with a small guiding question.\n\n" ++
  "Never end message without a question unless confirming order.\n\n" ++
  "🔥 CONVERSION BEHAVIOR:\n- Assume customer is ready to buy.\n- Speak confidently.\n" ++
  "- Avoid too many options.\n- Create small micro-commitments (size? color? confirm?).\n\n" ++
  "📦 PRODUCT RULES:\n- Use ONLY products listed below.\n" ++
  "- NEVER invent products, prices, or offers.\n- If unsure say:\n" ++
  "  Hindi: \"विवरण की पुष्टि हमारी टीम करेगी।\"\n" ++
  "  Gujarati: \"વિગતો અમારી ટીમ પુષ્ટિ કરશે।\"\n\n" ++
  "🧾 BUYING SIGNAL:\nIf customer says:\nhaan / yes / ok / levu che / confirm / book\n\n" ++
  "Immediately move to booking.\n\nFor Hindi use:\n" ++
  "\"आपका ऑर्डर तैयार कर रहा हूँ, कृपया नाम और शहर बताइए।\"\n\n" ++
  "For Gujarati use:\n\"તમારો ઓર્ડર તૈયાર કરી રહ્યો છું, કૃપા કરીને નામ અને શહેર જણાવો।\"\n\n" ++
  "👨‍💼 HUMAN REQUEST:\nIf user asks for human/agent:\nReply:\n" ++
  "Hindi: \"हमारी टीम शीघ्र आपसे संपर्क करेगी।\"\n" ++
  "Gujarati: \"અમારી ટીમ જલ્દી સંપર્ક કરશે।\"\nThen stop selling.\n\n" ++
  "=====================\nAVAILABLE PRODUCTS\n=====================\n\n"

/-- The closing text of `createSystemPrompt` after the rendered catalog. -/
def systemPromptFooter : String :=
  "\n\nRemember:\nBe natural.\nBe short.\nBe confident.\nAlways move toward confirmed order."

/-- Embedding of `createSystemPrompt(products)`: persona block, rendered catalog,
closing reminder. -/
def createSystemPrompt (products : List Product) : String :=
  systemPromptHeader ++ String.intercalate "\n" (products.map renderProductLine) ++
    systemPromptFooter

/- ===================== ai.js : generateResponse ===================== -/

/-- A `{role, message}` chat-history entry as stored/passed around. -/
structure ChatMsg where
  role : String
  message : String
deriving DecidableEq

/-- The message list `callOllama` actually posts: the system prompt first,
then the history with every non-"assistant" role mapped to "user". -/
def toOllamaMessages (systemPrompt : String) (chatHistory : List ChatMsg) : List ChatMsg :=
  { role := "system", message := systemPrompt } ::
    chatHistory.map (fun m =>
      { role := if m.role = "assistant" then "assistant" else "user", message := m.message })

/-- The pair `{name, city}` as produced by `extractCustomerInfo`. -/
structure ExtractedInfo where
  name : Option String
  city : Option String
deriving DecidableEq

/-- The `{id, name, price}` projection of a product stored in response
metadata. -/
structure ProductRef where
  id : String
  name : String
  price : ℚ
deriving DecidableEq

/-- The `metadata` object of a `generateResponse` result; `none` models an
absent (undefined) JSON field. -/
structure RespMetadata where
  agentRequested : Option Bool := none
  extractedInfo : Option ExtractedInfo := none
  relevantProducts : Option (List ProductRef) := none
  error : Option Bool := none
  errorMessage : Option String := none
deriving DecidableEq

/-- A `generateResponse` result: `{message, metadata}`. -/
structure AIResponse where
  message : String
  metadata : RespMetadata
deriving DecidableEq

/-- The environment `generateResponse` runs in: the outcome of the
`loadProducts()` file read/parse, the regex-based `extractCustomerInfo`
(left uninterpreted — no claim depends on its output), and the outcome of
the external Ollama call as a function of what would be posted. -/
structure GenEnv where
  productsResult : Except String (List Product)
  extractInfo : String → List ChatMsg → ExtractedInfo
  ollama : List ChatMsg → Except String String

/-- The fixed reply for a handoff request. -/
def agentReplyText : String :=
  "I understand you'd like to speak with a human agent. I've flagged your " ++
  "conversation, and someone from our team will contact you shortly. Is there " ++
  "anything else I can help you with in the meantime?"

/-- The fixed apologetic fallback reply of the catch-all handler. -/
def fallbackText : String :=
  "I'm having a little trouble right now. Could you please repeat that? 😊"

/-- Embedding of `generateResponse(userMessage, chatHistory)`.  The whole body runs in
a try/catch whose catch returns the fixed fallback with `error: true`;
the two fallible steps (product load, Ollama call) are the `Except`
values of the environment.  The second component records whether the
external model call was reached (the call counts as invoked even when it
fails). -/
def generateResponse (env : GenEnv) (userMessage : String) (chatHistory : List ChatMsg) :
    AIResponse × Bool :=
  match env.productsResult with
  | .error e =>
    ({ message := fallbackText, metadata := { error := some true, errorMessage := some e } },
     false)
  | .ok products =>
    if isAgentRequested userMessage then
      ({ message := agentReplyText, metadata := { agentRequested := some true } }, false)
    else
      let extractedInfo := env.extractInfo userMessage chatHistory
      let relevantProducts := findRelevantProducts userMessage products
      let systemPrompt := createSystemPrompt products
      let fullHistory := chatHistory ++ [{ role := "user", message := userMessage }]
      match env.ollama (toOllamaMessages systemPrompt fullHistory) with
      | .ok aiResponse =>
        ({ message := aiResponse,
           metadata :=
             { extractedInfo := some extractedInfo,
               relevantProducts :=
                 some (relevantProducts.map (fun p => ⟨p.id, p.name, p.price⟩)),
               agentRequested := some false } }, true)
      | .error e =>
        ({ message := fallbackText, metadata := { error := some true, errorMessage := some e } },
         true)

/- ===================== Claim C1 ===================== -/

/-- A two-turn conversation for phone number "p": the turn created at
time 0 and the turn created at time 1. -/
def turnOld : ChatTurn :=
  { id := 0, lead_id := 0, phone_number := "p", role := "user",
    message := "old", created_at := 0 }

def turnNew : ChatTurn :=
  { id := 1, lead_id := 0, phone_number := "p", role := "assistant",
    message := "new", created_at := 1 }

def dbTwoTurns : DB :=
  { leads := [], chat_history := [turnOld, turnNew], orders := [],
    nextLeadId := 0, nextOrderId := 0 }

/-- Claim C1: the claim says `getChatHistory(phone, n)` returns the
most-recent-`n` window ascending; the code orders ascending and then
applies `limit`, which keeps the FIRST `n` rows, i.e. the OLDEST-`n`
window.  On a two-turn history with limit 1 the code returns the turn
created at time 0 while the most-recent window is the turn created at
time 1. -/
theorem getChatHistory_returns_oldest_window :
    getChatHistory "p" 1 dbTwoTurns = [turnOld] ∧
    specRecentChatWindow "p" 1 dbTwoTurns = [turnNew] ∧
    turnOld ≠ turnNew := by
  refine ⟨?_, ?_, ?_⟩ <;> decide

/- ===================== Claim C4 ===================== -/

/-- Claim C4: `getStatistics` yields `conversionRate = 0` when there are
no leads (the divide-by-zero guard), and the half-up two-decimal rounding
of `C/T*100` when there are `T > 0` leads of which `C` are converted. -/
theorem getStatistics_conversionRate_correct (db : DB) :
    (db.leads.length = 0 → (getStatistics db).conversionRate = 0) ∧
    (∀ T C : Nat, T = db.leads.length →
      C = (db.leads.filter (fun l => l.status = "converted")).length →
      0 < T → (getStatistics db).conversionRate = round2 (((C : ℚ) / (T : ℚ)) * 100)) := by
  constructor
  · intro h
    simp [getStatistics, h]
  · intro T C hT hC hpos
    subst hT
    subst hC
    simp [getStatistics, hpos]

def dbNoLeads : DB :=
  { leads := [], chat_history := [], orders := [], nextLeadId := 0, nextOrderId := 0 }

/-- Two leads, one of them converted. -/
def leadConverted : Lead :=
  { id := 0, phone_number := "a", customer_name := none, city := none,
    status := "converted", needs_human_agent := false,
    last_message_at := 0, created_at := 0, updated_at := 0 }

def leadFreshA : Lead :=
  { id := 1, phone_number := "b", customer_name := none, city := none,
    status := "new", needs_human_agent := false,
    last_message_at := 0, created_at := 0, updated_at := 0 }

def dbTwoLeads : DB :=
  { leads := [leadConverted, leadFreshA], chat_history := [], orders := [],
    nextLeadId := 2, nextOrderId := 0 }

theorem getStatistics_conversionRate_correct_witness :
    (getStatistics dbNoLeads).conversionRate = 0 ∧
    (getStatistics dbTwoLeads).conversionRate = round2 (((1 : ℚ) / (2 : ℚ)) * 100) :=
  ⟨(getStatistics_conversionRate_correct dbNoLeads).1 rfl,
   (getStatistics_conversionRate_correct dbTwoLeads).2 2 1 rfl (by decide) (by decide)⟩

/- ===================== Claim C6 ===================== -/

/-- Claim C6: for every status outside {pending, confirmed, completed,
cancelled} the `PUT /api/orders/:orderId/status` handler answers with a
400 validation error and does not touch the store. -/
theorem orderStatusHandler_rejects_invalid (orderId : Nat) (status : String) (db : DB)
    (h : status ∉ validStatuses) :
    (updateOrderStatusHandler orderId (some status) db).1.code = 400 ∧
    (updateOrderStatusHandler orderId (some status) db).1.success = false ∧
    (updateOrderStatusHandler orderId (some status) db).2 = db := by
  unfold updateOrderStatusHandler
  dsimp only
  rw [if_neg h]
  exact ⟨rfl, rfl, rfl⟩

def orderPending : Order :=
  { id := 0, lead_id := 0, phone_number := "p", products := [],
    total_amount := none, status := "pending", notes := none, created_at := 0 }

def dbOneOrder : DB :=
  { leads := [], chat_history := [], orders := [orderPending],
    nextLeadId := 0, nextOrderId := 1 }

theorem orderStatusHandler_rejects_invalid_witness :
    (updateOrderStatusHandler 0 (some "shipped") dbOneOrder).1.code = 400 ∧
    (updateOrderStatusHandler 0 (some "shipped") dbOneOrder).1.success = false ∧
    (updateOrderStatusHandler 0 (some "shipped") dbOneOrder).2 = dbOneOrder :=
  orderStatusHandler_rejects_invalid 0 "shipped" dbOneOrder (by decide)

/- ===================== Claim C7 ===================== -/

/-- A small concrete catalog used to instantiate the C7 statement. -/
def catalogMini : List Product :=
  [{ id := "PROD001", name := "Classic Sneakers",
     description := "Comfortable everyday shoes", price := 49,
     keywords := some ["shoe", "sneaker"] },
   { id := "PROD002", name := "Leather Belt",
     description := "Genuine leather belt", price := 15,
     category := some "Accessories" }]

/-- Claim C7: `findRelevantProducts` returns at most 3 products, each of
which passes the keyword/category/name case-insensitive substring test
against the message, and the result is a sublist of the catalog (so the
relative catalog order is preserved). -/
theorem findRelevantProducts_correct (message : String) (products : List Product) :
    (findRelevantProducts message products).length ≤ 3 ∧
    (∀ p ∈ findRelevantProducts message products,
      productMatches (lowerStr message) p = true) ∧
    (findRelevantProducts message products).Sublist products := by
  refine ⟨?_, ?_, ?_⟩
  · unfold findRelevantProducts
    rw [List.length_take]
    exact min_le_left _ _
  · intro p hp
    unfold findRelevantProducts at hp
    exact List.of_mem_filter (List.mem_of_mem_take hp)
  · unfold findRelevantProducts
    exact (List.take_sublist _ _).trans (List.filter_sublist _)

theorem findRelevantProducts_correct_witness :
    (findRelevantProducts "any shoe today" catalogMini).length ≤ 3 ∧
    (∀ p ∈ findRelevantProducts "any shoe today" catalogMini,
      productMatches (lowerStr "any shoe today") p = true) ∧
    (findRelevantProducts "any shoe today" catalogMini).Sublist catalogMini :=
  findRelevantProducts_correct "any shoe today" catalogMini

/- ===================== Claim C2 ===================== -/

/-- An environment in which `loadProducts()` fails (for example
`products.json` is missing or unparsable); the other collaborators are
healthy. -/
def envLoadFails : GenEnv :=
  { productsResult := .error "ENOENT: no such file or directory, open products.json",
    extractInfo := fun _ _ => { name := none, city := none },
    ollama := fun _ => .ok "Sure!" }

/-- A healthy environment with a one-product catalog. -/
def catalogOne : List Product :=
  [{ id := "PROD001", name := "Classic Sneakers",
     description := "Comfortable everyday shoes", price := 49,
     keywords := some ["shoe", "sneaker"] }]

def envOk : GenEnv :=
  { productsResult := .ok catalogOne,
    extractInfo := fun _ _ => { name := none, city := none },
    ollama := fun _ => .ok "Sure!" }

/-- Claim C2 counterexample: `generateResponse` runs `loadProducts()`
BEFORE the handoff-keyword check, so when the catalog load fails the
catch-all returns the error fallback and `metadata.agentRequested` is
left unset even though the message "agent" contains a handoff keyword —
the claim's "returns metadata.agentRequested = true" does not hold for
every execution. -/
theorem handoff_claim_fails_when_load_fails :
    isAgentRequested "agent" = true ∧
    (generateResponse envLoadFails "agent" []).1.metadata.agentRequested ≠ some true := by
  refine ⟨by decide, ?_⟩
  intro h
  cases h

/-- Claim C2 as amended: for every message containing a handoff keyword
(case-insensitively), `generateResponse` never invokes the external
model, and — whenever the product-catalog load succeeds — it returns
`metadata.agentRequested = true` with the fixed handoff reply. -/
theorem generateResponse_handoff (env : GenEnv) (msg : String) (hist : List ChatMsg)
    (hk : isAgentRequested msg = true) :
    (generateResponse env msg hist).2 = false ∧
    (∀ ps, env.productsResult = .ok ps →
      (generateResponse env msg hist).1.metadata.agentRequested = some true ∧
      (generateResponse env msg hist).1.message = agentReplyText) := by
  unfold generateResponse
  cases hp : env.productsResult with
  | error e =>
    exact ⟨rfl, fun ps hps => Except.noConfusion hps⟩
  | ok products =>
    dsimp only
    rw [if_pos hk]
    exact ⟨rfl, fun ps _ => ⟨rfl, rfl⟩⟩

theorem generateResponse_handoff_witness :
    (generateResponse envOk "I want to talk to a REAL person" []).2 = false ∧
    (generateResponse envOk "I want to talk to a REAL person" []).1.metadata.agentRequested
      = some true := by
  have h := generateResponse_handoff envOk "I want to talk to a REAL person" [] (by decide)
  exact ⟨h.1, (h.2 catalogOne rfl).1⟩

/- ===================== Claim C9 ===================== -/

/-- Claim C9: `generateResponse` is total at its interface (its type
returns an `AIResponse`, never a raised exception): a failing catalog
load — which happens before any model call — and a failing model call
are both converted into the fixed apologetic reply with
`metadata.error = true`, and the error flag is only ever set together
with that fixed reply. -/
theorem generateResponse_catches_all_errors (env : GenEnv) (msg : String)
    (hist : List ChatMsg) :
    (∀ e, env.productsResult = .error e →
      (generateResponse env msg hist).1.message = fallbackText ∧
      (generateResponse env msg hist).1.metadata.error = some true ∧
      (generateResponse env msg hist).1.metadata.errorMessage = some e) ∧
    (∀ ps, env.productsResult = .ok ps → isAgentRequested msg = false →
      ∀ e, env.ollama (toOllamaMessages (createSystemPrompt ps)
          (hist ++ [{ role := "user", message := msg }])) = .error e →
      (generateResponse env msg hist).1.message = fallbackText ∧
      (generateResponse env msg hist).1.metadata.error = some true) ∧
    ((generateResponse env msg hist).1.metadata.error = some true →
      (generateResponse env msg hist).1.message = fallbackText) := by
  unfold generateResponse
  cases hp : env.productsResult with
  | error e =>
    refine ⟨fun e2 he2 => ?_, fun ps hps => Except.noConfusion hps, fun _ => rfl⟩
    injection he2 with h
    subst h
    exact ⟨rfl, rfl, rfl⟩
  | ok products =>
    by_cases hk : isAgentRequested msg = true
    · dsimp only
      rw [if_pos hk]
      refine ⟨fun e he => Except.noConfusion he, fun ps hps hna => ?_,
        fun herr => Option.noConfusion herr⟩
      rw [hna] at hk
      exact Bool.noConfusion hk
    · dsimp only
      rw [if_neg hk]
      cases ho : env.ollama (toOllamaMessages (createSystemPrompt products)
          (hist ++ [{ role := "user", message := msg }])) with
      | ok reply =>
        refine ⟨fun e he => Except.noConfusion he, fun ps hps hna e2 he2 => ?_,
          fun herr => Option.noConfusion herr⟩
        injection hps with h
        subst h
        rw [ho] at he2
        exact Except.noConfusion he2
      | error e =>
        refine ⟨fun e2 he2 => Except.noConfusion he2,
          fun ps hps hna e2 he2 => ⟨rfl, rfl⟩, fun _ => rfl⟩

theorem generateResponse_catches_all_errors_witness :
    (generateResponse envLoadFails "hello" []).1.message = fallbackText ∧
    (generateResponse envLoadFails "hello" []).1.metadata.error = some true ∧
    (generateResponse envLoadFails "hello" []).1.metadata.errorMessage
      = some "ENOENT: no such file or directory, open products.json" :=
  (generateResponse_catches_all_errors envLoadFails "hello" []).1
    "ENOENT: no such file or directory, open products.json" rfl

/- ===================== Claim C3 ===================== -/

/-- If a predicate finds nothing in the first list, searching the
concatenation searches the second list. -/
theorem find?_append_of_none {α : Type} (p : α → Bool) (l1 l2 : List α)
    (h : l1.find? p = none) : (l1 ++ l2).find? p = l2.find? p := by
  rw [List.find?_append, h]
  rfl

/-- Claim C3 counterexample: the second `getOrCreateLead` call for the
same phone number refreshes `updated_at` (the update timestamp) in
addition to the activity timestamp `last_message_at`, so "leaving all
other fields of that Lead unchanged" fails: after calls at times 0 and 1
the returned lead has the same id but `updated_at` moved from 0 to 1. -/
theorem getOrCreateLead_second_call_changes_updated_at :
    ((getOrCreateLead "15551234567" 0 dbNoLeads).1).updated_at = 0 ∧
    ((getOrCreateLead "15551234567" 1
        (getOrCreateLead "15551234567" 0 dbNoLeads).2).1).id
      = ((getOrCreateLead "15551234567" 0 dbNoLeads).1).id ∧
    ((getOrCreateLead "15551234567" 1
        (getOrCreateLead "15551234567" 0 dbNoLeads).2).1).updated_at = 1 := by
  refine ⟨?_, ?_, ?_⟩ <;> decide

/-- Claim C3 as amended: for a phone number with no lead, the first call
appends exactly one lead with status "new" (and it is the only lead for
that phone); a second call returns a lead with the same id, refreshes the
activity timestamp `last_message_at` AND the update timestamp
`updated_at`, leaves every other field unchanged, and creates no second
row. -/
theorem getOrCreateLead_upsert (phone : String) (t1 t2 : Nat) (db : DB)
    (l1 : Lead) (db1 : DB) (l2 : Lead) (db2 : DB)
    (habs : ∀ l ∈ db.leads, l.phone_number ≠ phone)
    (h1 : getOrCreateLead phone t1 db = (l1, db1))
    (h2 : getOrCreateLead phone t2 db1 = (l2, db2)) :
    db1.leads = db.leads ++ [l1] ∧
    (db1.leads.filter (fun l => l.phone_number = phone)).length = 1 ∧
    l1.status = "new" ∧ l1.phone_number = phone ∧
    l2.id = l1.id ∧ l2.last_message_at = t2 ∧ l2.updated_at = t2 ∧
    l2.phone_number = l1.phone_number ∧ l2.status = l1.status ∧
    l2.customer_name = l1.customer_name ∧ l2.city = l1.city ∧
    l2.needs_human_agent = l1.needs_human_agent ∧ l2.created_at = l1.created_at ∧
    db2.leads.length = db1.leads.length := by
  have hnone : db.leads.find? (fun l => l.phone_number = phone) = none := by
    rw [List.find?_eq_none]
    intro x hx
    simpa using habs x hx
  unfold getOrCreateLead at h1
  rw [hnone] at h1
  injection h1 with hl1 hdb1
  subst hl1
  subst hdb1
  have hfind2 : (db.leads ++ [freshLead phone t1 db.nextLeadId]).find?
      (fun l => l.phone_number = phone) = some (freshLead phone t1 db.nextLeadId) := by
    rw [find?_append_of_none _ _ _ hnone, List.find?_cons_of_pos]
    simp [freshLead]
  unfold getOrCreateLead at h2
  rw [hfind2] at h2
  injection h2 with hl2 hdb2
  subst hl2
  subst hdb2
  refine ⟨rfl, ?_, rfl, rfl, rfl, rfl, rfl, rfl, rfl, rfl, rfl, rfl, rfl, ?_⟩
  · show ((db.leads ++ [freshLead phone t1 db.nextLeadId]).filter
      (fun l => l.phone_number = phone)).length = 1
    rw [List.filter_append]
    have hnil : db.leads.filter (fun l => l.phone_number = phone) = [] := by
      rw [List.filter_eq_nil_iff]
      intro x hx
      simpa using habs x hx
    rw [hnil]
    simp [freshLead]
  · exact List.length_map _ _

def leadP1 : Lead := freshLead "15551234567" 0 0

def dbAfterFirst : DB :=
  { leads := [leadP1], chat_history := [], orders := [], nextLeadId := 1, nextOrderId := 0 }

def leadP2 : Lead := { leadP1 with last_message_at := 1, updated_at := 1 }

def dbAfterSecond : DB :=
  { leads := [leadP2], chat_history := [], orders := [], nextLeadId := 1, nextOrderId := 0 }

theorem getOrCreateLead_upsert_witness :
    dbAfterFirst.leads = dbNoLeads.leads ++ [leadP1] ∧
    (dbAfterFirst.leads.filter (fun l => l.phone_number = "15551234567")).length = 1 ∧
    leadP1.status = "new" ∧ leadP1.phone_number = "15551234567" ∧
    leadP2.id = leadP1.id ∧ leadP2.last_message_at = 1 ∧ leadP2.updated_at = 1 ∧
    leadP2.phone_number = leadP1.phone_number ∧ leadP2.status = leadP1.status ∧
    leadP2.customer_name = leadP1.customer_name ∧ leadP2.city = leadP1.city ∧
    leadP2.needs_human_agent = leadP1.needs_human_agent ∧
    leadP2.created_at = leadP1.created_at ∧
    dbAfterSecond.leads.length = dbAfterFirst.leads.length :=
  getOrCreateLead_upsert "15551234567" 0 1 dbNoLeads leadP1 dbAfterFirst leadP2 dbAfterSecond
    (by decide) (by decide) (by decide)

/- ===================== Claim C5 ===================== -/

/-- A successful `updateLead` whose update carries `status = s` leaves
every lead with the targeted id at status `s`, and such a lead exists. -/
theorem updateLead_sets_status (leadId : Nat) (u : LeadUpdate) (now : Nat)
    (db : DB) (l2 : Lead) (db2 : DB) (s : String)
    (h : updateLead leadId u now db = .ok (l2, db2)) (hs : u.status = some s) :
    (∃ l ∈ db2.leads, l.id = leadId) ∧
    (∀ l ∈ db2.leads, l.id = leadId → l.status = s) := by
  unfold updateLead at h
  cases hfil : db.leads.filter (fun l => l.id = leadId) with
  | nil =>
    rw [hfil] at h
    exact Except.noConfusion h
  | cons a tl =>
    cases tl with
    | cons b tl2 =>
      rw [hfil] at h
      exact Except.noConfusion h
    | nil =>
      rw [hfil] at h
      injection h with h'
      injection h' with hl hdb
      subst hdb
      have hamem : a ∈ db.leads.filter (fun l => l.id = leadId) := by
        rw [hfil]
        exact List.mem_singleton_self a
      have haid : a.id = leadId := by simpa using List.of_mem_filter hamem
      have hain : a ∈ db.leads := List.mem_of_mem_filter hamem
      constructor
      · refine ⟨applyLeadUpdate u now a, ?_, ?_⟩
        · refine List.mem_map.mpr ⟨a, hain, ?_⟩
          show (if a.id = leadId then applyLeadUpdate u now a else a) = applyLeadUpdate u now a
          rw [if_pos haid]
        · show (applyLeadUpdate u now a).id = leadId
          simpa [applyLeadUpdate] using haid
      · intro l hl2 hid
        obtain ⟨x, hx, hfx⟩ := List.mem_map.mp hl2
        by_cases hxid : x.id = leadId
        · rw [if_pos hxid] at hfx
          subst hfx
          simp [applyLeadUpdate, hs]
        · rw [if_neg hxid] at hfx
          subst hfx
          exact absurd hid hxid

/-- Claim C5: every successful `createOrder` leaves the parent lead (the
one with id `leadId`) with status "converted", whatever its status was
before the call. -/
theorem createOrder_converts (leadId : Nat) (phone : String) (products : List OrderItem)
    (total : Option ℚ) (notes : Option String) (now : Nat) (db : DB)
    (o : Order) (db2 : DB)
    (h : createOrder leadId phone products total notes now db = .ok (o, db2)) :
    (∃ l ∈ db2.leads, l.id = leadId) ∧
    (∀ l ∈ db2.leads, l.id = leadId → l.status = "converted") := by
  unfold createOrder at h
  dsimp only at h
  cases hu : (updateLead leadId { status := some "converted" } now
      { db with
        orders := db.orders ++ [⟨db.nextOrderId, leadId, phone, products, total, "pending", notes, now⟩],
        nextOrderId := db.nextOrderId + 1 }) with
  | error e =>
    rw [hu] at h
    exact Except.noConfusion h
  | ok p =>
    obtain ⟨lu, db2x⟩ := p
    rw [hu] at h
    injection h with h'
    injection h' with ho hdb
    subst hdb
    exact updateLead_sets_status leadId _ now _ lu db2x "converted" hu rfl

def leadForOrder : Lead := freshLead "15551234567" 0 0

def dbOneLead : DB :=
  { leads := [leadForOrder], chat_history := [], orders := [],
    nextLeadId := 1, nextOrderId := 0 }

def itemSneakers : OrderItem :=
  { id := "PROD001", quantity := 1, name := "Classic Sneakers", price := 49 }

def orderCreated : Order :=
  { id := 0, lead_id := 0, phone_number := "15551234567", products := [itemSneakers],
    total_amount := none, status := "pending", notes := none, created_at := 5 }

def leadAfterOrder : Lead :=
  { leadForOrder with status := "converted", updated_at := 5 }

def dbAfterOrder : DB :=
  { leads := [leadAfterOrder], chat_history := [], orders := [orderCreated],
    nextLeadId := 1, nextOrderId := 1 }

theorem createOrder_converts_witness :
    (∃ l ∈ dbAfterOrder.leads, l.id = 0) ∧
    (∀ l ∈ dbAfterOrder.leads, l.id = 0 → l.status = "converted") :=
  createOrder_converts 0 "15551234567" [itemSneakers] none none 5 dbOneLead
    orderCreated dbAfterOrder (by rfl)

end WABot
